import Mathlib

/-!
Shallow embedding of the boundary layer in `app/routes.py`: the ticker
search/ranking handler (`search_ticker`), the ticker resolver, and the
request-validation pipeline of the `analyze` handler, together with proofs
of the specified properties.

Python strings are modeled as Lean `String` (a list of unicode code points,
matching Python's code-point view for `upper`, slicing, comparison and
membership). The reference catalog (`TICKERS` / `TICKER_DICT`, defined in
`app/utils/tickers.py`, outside the embedded file) is a parameter of every
definition that reads it.
-/

/-- Python `s.upper()` as used by the routes: code-point-wise upper casing. -/
def pyUpper (s : String) : String := ⟨s.data.map Char.toUpper⟩

/-- Python `s.startswith(pre)`. -/
def pyStartsWith (s pre : String) : Bool := pre.data.isPrefixOf s.data

/-- Python `needle in hay` on strings: contiguous substring test
(`""` is a substring of everything, as in Python). -/
def pySubstr (needle hay : String) : Bool := decide (needle.data <:+: hay.data)

/-- Split a character list at every character satisfying `p`, keeping empty
pieces (the semantics of splitting on each separator occurrence). -/
def splitChars (p : Char → Bool) : List Char → List (List Char)
  | [] => [[]]
  | c :: cs =>
    match splitChars p cs with
    | [] => [[]]
    | piece :: rest => if p c then [] :: piece :: rest else (c :: piece) :: rest

/-- Python `s.split()` with no separator argument: split on runs of
whitespace, discarding empty pieces. -/
def pySplitWs (s : String) : List String :=
  ((splitChars (fun c => c.isWhitespace) s.data).map fun l => (⟨l⟩ : String)).filter
    fun t => t != ""

/-- Value of a run of decimal digits, most significant first. -/
def digitsToNat (l : List Char) : Nat :=
  l.foldl (fun acc c => 10 * acc + (c.toNat - 48)) 0

/-- Python `int(s)` on a decimal string: strip surrounding whitespace, allow
one optional sign, then require a nonempty run of digits (`none` models the
`ValueError`; underscore digit grouping is not modeled). -/
def pyInt (s : String) : Option Int :=
  let t := ((s.data.dropWhile Char.isWhitespace).reverse.dropWhile
    Char.isWhitespace).reverse
  let signed : Bool × List Char :=
    match t with
    | '-' :: rest => (true, rest)
    | '+' :: rest => (false, rest)
    | l => (false, l)
  if signed.2 ≠ [] ∧ signed.2.all Char.isDigit then
    some (if signed.1 then -(digitsToNat signed.2 : Int) else (digitsToNat signed.2 : Int))
  else none

/-- Length of a month under the Gregorian rules `datetime` uses. -/
def daysInMonth (y m : Nat) : Nat :=
  if m = 2 then
    if y % 4 = 0 ∧ (y % 100 ≠ 0 ∨ y % 400 = 0) then 29 else 28
  else if m = 4 ∨ m = 6 ∨ m = 9 ∨ m = 11 then 30
  else 31

/-- Python `datetime.strptime(s, "%Y-%m-%d")`: exactly four year digits, one
or two month digits, one or two day digits, separated by `-`, forming a valid
calendar date; `none` models the `ValueError`. -/
def strptimeYMD (s : String) : Option (Nat × Nat × Nat) :=
  match (splitChars (fun c => c = '-') s.data).map fun l => (⟨l⟩ : String) with
  | [ys, ms, ds] =>
    if ys.data.length = 4 ∧ ys.data.all Char.isDigit ∧
        1 ≤ ms.data.length ∧ ms.data.length ≤ 2 ∧ ms.data.all Char.isDigit ∧
        1 ≤ ds.data.length ∧ ds.data.length ≤ 2 ∧ ds.data.all Char.isDigit then
      let y := digitsToNat ys.data
      let m := digitsToNat ms.data
      let d := digitsToNat ds.data
      if 1 ≤ y ∧ 1 ≤ m ∧ m ≤ 12 ∧ 1 ≤ d ∧ d ≤ daysInMonth y m then
        some (y, m, d)
      else none
    else none
  | _ => none

/-- One row of the `TICKERS` reference list. -/
structure TickerEntry where
  symbol : String
  name : String
deriving DecidableEq, Repr

/-- The reference catalog: the ordered `TICKERS` list together with the
`TICKER_DICT` exact-lookup mapping (modeled as an association list). -/
structure Catalog where
  tickers : List TickerEntry
  dict : List (String × String)
deriving DecidableEq, Repr

/-- Python `key in TICKER_DICT`. -/
def Catalog.hasKey (cat : Catalog) (k : String) : Bool :=
  (cat.dict.lookup k).isSome

/-- The `source` tag of a search result (always `predefined` in this code). -/
inductive Source where
  | predefined
deriving DecidableEq, Repr

/-- One element of the JSON array returned by `search_ticker`. -/
structure SearchResult where
  symbol : String
  name : String
  source : Source
deriving DecidableEq, Repr

/-- First component of the sort key `(x.symbol != query, len(x.symbol), x.symbol)`
of `search_results.sort`: `False` (0) for the exact query match, `True` (1)
otherwise, so exact matches order first. -/
def searchRank (query : String) (a : SearchResult) : Nat :=
  if a.symbol = query then 0 else 1

/-- Comparison underlying `search_results.sort(key=...)`: Python's
lexicographic order on the key tuples `(x.symbol != query, len(x.symbol),
x.symbol)` — exact query match first, then shorter symbols, then
lexicographic symbol order. -/
def searchKeyLE (query : String) (a b : SearchResult) : Bool :=
  decide (searchRank query a < searchRank query b ∨
    (searchRank query a = searchRank query b ∧
      (a.symbol.length < b.symbol.length ∨
        (a.symbol.length = b.symbol.length ∧ a.symbol ≤ b.symbol))))

/-- The partial-match comprehension of `search_ticker`: catalog entries whose
upper-cased symbol or name contains `query`, excluding an exact symbol
equality with `query`, kept in catalog order. -/
def partialMatches (cat : Catalog) (query : String) : List SearchResult :=
  (cat.tickers.filter fun t =>
    (pySubstr query (pyUpper t.symbol) || pySubstr query (pyUpper t.name)) &&
      t.symbol != query).map fun t => ⟨t.symbol, t.name, Source.predefined⟩

/-- The `/search_ticker` handler: `queryArg` is the raw `query` request
argument (`none` when absent, defaulted to `""`). Mirrors `search_ticker`
in `app/routes.py` line by line; the `try/except` there can only be left
normally for this pure body, so no error case arises. -/
def searchTicker (cat : Catalog) (queryArg : Option String) : List SearchResult :=
  let query := pyUpper (queryArg.getD "")
  if query = "" then []
  else
    let exact : List SearchResult :=
      match cat.dict.lookup query with
      | some nm => [⟨query, nm, Source.predefined⟩]
      | none => []
    let results : List SearchResult :=
      if exact.length < 5 then
        exact ++ (partialMatches cat query).take (5 - exact.length)
      else exact
    (results.mergeSort (searchKeyLE query)).take 5

/-- The distinct `raise ValueError(...)` sites of the validation stages in
`analyze` (the spec's error taxonomy). -/
inductive ValErr where
  | missingSymbol
  | invalidDateFormat
  | invalidLookback
  | invalidCrossover
deriving DecidableEq, Repr

/-- The message string of each validation `ValueError` in `analyze`. -/
def ValErr.message : ValErr → String
  | .missingSymbol => "Ticker symbol is required"
  | .invalidDateFormat => "Invalid date format. Please use YYYY-MM-DD format"
  | .invalidLookback => "Invalid lookback days value"
  | .invalidCrossover => "Invalid crossover days value"

/-- Date stage of `analyze` (lines 91-100): `end_date = request.form.get('end_date')`,
parse only when truthy (present and nonempty), otherwise `None`. -/
def parseEndDateField (fld : Option String) : Except ValErr (Option String) :=
  match fld with
  | none => .ok none
  | some s =>
    if s = "" then .ok none
    else
      match strptimeYMD s with
      | some _ => .ok (some s)
      | none => .error ValErr.invalidDateFormat

/-- Lookback stage of `analyze` (lines 102-108): `int(request.form.get('lookback_days', 365))`
then the `[30, 1825]` range check; both the parse failure and the range
failure are re-raised as the same `ValueError`. -/
def parseLookbackField (fld : Option String) : Except ValErr Int :=
  match fld with
  | none => .ok 365
  | some s =>
    match pyInt s with
    | none => .error ValErr.invalidLookback
    | some n => if n < 30 ∨ n > 1825 then .error ValErr.invalidLookback else .ok n

/-- Crossover stage of `analyze` (lines 110-116): `int(request.form.get('crossover_days', 180))`
then the `[30, 365]` range check. -/
def parseCrossoverField (fld : Option String) : Except ValErr Int :=
  match fld with
  | none => .ok 180
  | some s =>
    match pyInt s with
    | none => .error ValErr.invalidCrossover
    | some n => if n < 30 ∨ n > 365 then .error ValErr.invalidCrossover else .ok n

/-- Ticker resolution in `analyze` (lines 82-88): exact `TICKER_DICT` key, else
the first `TICKERS` symbol starting with the input, else the input itself. -/
def resolveTicker (cat : Catalog) (input : String) : String :=
  if cat.hasKey input then input
  else
    match cat.tickers.find? fun t => pyStartsWith t.symbol input with
    | some t => t.symbol
    | none => input

/-- The raw `/analyze` form fields; `none` models an absent field. -/
structure FormData where
  ticker : Option String := none
  end_date : Option String := none
  lookback_days : Option String := none
  crossover_days : Option String := none

/-- Abstract boundary call covering `create_combined_analysis` plus
`fig.to_html` (both inside the inner `try` of `analyze`); an `Except.error`
models any exception raised there, carrying `str(analysis_error)`. -/
def Orchestrator : Type :=
  String → Option String → Int → Int → Except String String

/-- Everything the `except Exception` branch of `analyze` can observe. -/
inductive AnalyzeErr where
  | validation (e : ValErr)
  | analysisFailure (msg : String)
deriving DecidableEq, Repr

/-- `str(e)` for the exception reaching the `except Exception` branch. -/
def AnalyzeErr.message : AnalyzeErr → String
  | .validation e => e.message
  | .analysisFailure msg => "Analysis failed: " ++ msg

/-- Outcome of the `try` body of `analyze` before response rendering. -/
inductive PipelineOutcome where
  | crashUnbound
  | failure (tickerInput : String) (err : AnalyzeErr)
  | success (tickerInput : String) (html : String)
deriving DecidableEq, Repr

/-- The `try` body of `analyze` (lines 75-141). The first line
`request.form.get('ticker', '').split()[0].upper()` raises `IndexError` when
the split produces no token, before `ticker_input` is assigned; the
`except` branch then evaluates the unbound `ticker_input` and itself raises
`UnboundLocalError`, modeled as `crashUnbound`. -/
def analyzePipeline (cat : Catalog) (orch : Orchestrator) (f : FormData) :
    PipelineOutcome :=
  match pySplitWs (f.ticker.getD "") with
  | [] => .crashUnbound
  | tok :: _ =>
    let ticker_input := pyUpper tok
    if ticker_input = "" then .failure ticker_input (.validation .missingSymbol)
    else
      let ticker := resolveTicker cat ticker_input
      match parseEndDateField f.end_date with
      | .error e => .failure ticker_input (.validation e)
      | .ok end_date =>
        match parseLookbackField f.lookback_days with
        | .error e => .failure ticker_input (.validation e)
        | .ok lookback =>
          match parseCrossoverField f.crossover_days with
          | .error e => .failure ticker_input (.validation e)
          | .ok crossover =>
            match orch ticker end_date lookback crossover with
            | .ok html => .success ticker_input html
            | .error msg => .failure ticker_input (.analysisFailure msg)

/-- Message interpolated into the error page:
`f"Error analyzing {ticker_input}: {str(e)}"`. -/
def errorMsgFor (tickerInput msg : String) : String :=
  "Error analyzing " ++ tickerInput ++ ": " ++ msg

/-- Opening part of the `error_html` f-string template (up to `<p>`). -/
def errorHtmlPre : String :=
  "\n        <html>\n            <head>\n                <title>Error</title>\n                <style>\n                    body \x7b font-family: Arial, sans-serif; padding: 2rem; \x7d\n                    .error \x7b color: #dc3545; padding: 1rem; background-color: #f8d7da; \n                             border: 1px solid #f5c6cb; border-radius: 3px; \x7d\n                    .back-link \x7b margin-top: 1rem; display: block; \x7d\n                </style>\n            </head>\n            <body>\n                <div class=\"error\">\n                    <h2>Analysis Error</h2>\n                    <p>"

/-- Closing part of the `error_html` f-string template (after `</p>`). -/
def errorHtmlPost : String :=
  "</p>\n                </div>\n                <a href=\"javascript:window.close();\" class=\"back-link\">Close Window</a>\n            </body>\n        </html>\n        "

/-- The styled error document rendered by the `except` branch of `analyze`. -/
def errorHtml (errMsg : String) : String :=
  errorHtmlPre ++ errMsg ++ errorHtmlPost

/-- What the `/analyze` route hands back to Flask: either a document with an
HTTP status, or an exception escaping the handler (which Flask turns into a
generic server error page). -/
inductive AnalyzeResult where
  | html (content : String) (status : Nat)
  | crash (err : String)
deriving DecidableEq, Repr

/-- The message of the exception escaping `analyze` when the `except` branch
evaluates `ticker_input` although line 75 failed before assigning it. -/
def unboundLocalMsg : String :=
  "UnboundLocalError: local variable referenced before assignment: ticker_input"

/-- The `/analyze` handler: renders the pipeline outcome (success document
with status 200, styled error page with status 500, or the escaping
`UnboundLocalError`). -/
def analyze (cat : Catalog) (orch : Orchestrator) (f : FormData) : AnalyzeResult :=
  match analyzePipeline cat orch f with
  | .crashUnbound => .crash unboundLocalMsg
  | .failure t e => .html (errorHtml (errorMsgFor t e.message)) 500
  | .success _ h => .html h 200

/-! ## Helper lemmas -/

theorem pyUpper_empty_iff (s : String) : pyUpper s = "" ↔ s = "" := by
  constructor
  · intro h
    have h2 : s.data.map Char.toUpper = [] := congrArg String.data h
    exact String.ext (List.map_eq_nil_iff.mp h2)
  · intro h
    subst h
    rfl

/-! ## C5 -/

/-- C5: search never surfaces an error: it is a total function into result
lists, and both an absent query and the empty query yield the empty list. -/
theorem searchTicker_empty_query (cat : Catalog) :
    searchTicker cat none = [] ∧ searchTicker cat (some "") = [] := by
  constructor <;> rfl

/-! ## C9 -/

/-- C9: a present-but-empty numeric field is an error (the defaults 365 and
180 apply only to absent fields), while a present-but-empty end date behaves
like an absent one. -/
theorem empty_field_vs_absent_field :
    parseLookbackField (some "") = Except.error ValErr.invalidLookback ∧
    parseCrossoverField (some "") = Except.error ValErr.invalidCrossover ∧
    parseEndDateField (some "") = Except.ok none ∧
    parseEndDateField none = Except.ok none ∧
    parseLookbackField none = Except.ok 365 ∧
    parseCrossoverField none = Except.ok 180 := by
  refine ⟨rfl, rfl, rfl, rfl, rfl, rfl⟩

/-! ## C6 -/

/-- C6: the numeric stages are boundary-inclusive with defaults: absent
fields default to 365 and 180; a supplied field succeeds exactly when it
parses to an integer inside the closed range ([30, 1825] for lookback,
[30, 365] for crossover) and otherwise fails with the stage's own error;
29/1826 are rejected and 30/1825 accepted for lookback, 29/366 rejected and
30/365 accepted for crossover. -/
theorem numeric_stages_spec :
    parseLookbackField none = Except.ok 365 ∧
    parseCrossoverField none = Except.ok 180 ∧
    (∀ (s : String) (n : Int),
      parseLookbackField (some s) = Except.ok n ↔
        pyInt s = some n ∧ 30 ≤ n ∧ n ≤ 1825) ∧
    (∀ s : String,
      parseLookbackField (some s) = Except.error ValErr.invalidLookback ↔
        (pyInt s = none ∨ ∃ n, pyInt s = some n ∧ (n < 30 ∨ 1825 < n))) ∧
    (∀ (s : String) (n : Int),
      parseCrossoverField (some s) = Except.ok n ↔
        pyInt s = some n ∧ 30 ≤ n ∧ n ≤ 365) ∧
    (∀ s : String,
      parseCrossoverField (some s) = Except.error ValErr.invalidCrossover ↔
        (pyInt s = none ∨ ∃ n, pyInt s = some n ∧ (n < 30 ∨ 365 < n))) ∧
    parseLookbackField (some "29") = Except.error ValErr.invalidLookback ∧
    parseLookbackField (some "30") = Except.ok 30 ∧
    parseLookbackField (some "1825") = Except.ok 1825 ∧
    parseLookbackField (some "1826") = Except.error ValErr.invalidLookback ∧
    parseCrossoverField (some "29") = Except.error ValErr.invalidCrossover ∧
    parseCrossoverField (some "30") = Except.ok 30 ∧
    parseCrossoverField (some "365") = Except.ok 365 ∧
    parseCrossoverField (some "366") = Except.error ValErr.invalidCrossover := by
  refine ⟨rfl, rfl, ?_, ?_, ?_, ?_, rfl, rfl, rfl, rfl, rfl, rfl, rfl, rfl⟩
  · intro s n
    cases h : pyInt s with
    | none => simp [parseLookbackField, h]
    | some m =>
      simp only [parseLookbackField, h]
      split_ifs with hc
      · simp only [Option.some.injEq]
        constructor
        · intro hfalse
          cases hfalse
        · rintro ⟨rfl, h1, h2⟩
          omega
      · simp only [Except.ok.injEq, Option.some.injEq]
        constructor
        · rintro rfl
          refine ⟨rfl, by omega, by omega⟩
        · rintro ⟨rfl, _, _⟩
          rfl
  · intro s
    cases h : pyInt s with
    | none => simp [parseLookbackField, h]
    | some m =>
      simp only [parseLookbackField, h]
      split_ifs with hc
      · simp only [Option.some.injEq]
        constructor
        · intro _
          exact Or.inr ⟨m, rfl, hc⟩
        · intro _
          trivial
      · constructor
        · intro hfalse
          cases hfalse
        · rintro (hfalse | ⟨n, hn, hrange⟩)
          · cases hfalse
          · injection hn with hn
            subst hn
            omega
  · intro s n
    cases h : pyInt s with
    | none => simp [parseCrossoverField, h]
    | some m =>
      simp only [parseCrossoverField, h]
      split_ifs with hc
      · simp only [Option.some.injEq]
        constructor
        · intro hfalse
          cases hfalse
        · rintro ⟨rfl, h1, h2⟩
          omega
      · simp only [Except.ok.injEq, Option.some.injEq]
        constructor
        · rintro rfl
          refine ⟨rfl, by omega, by omega⟩
        · rintro ⟨rfl, _, _⟩
          rfl
  · intro s
    cases h : pyInt s with
    | none => simp [parseCrossoverField, h]
    | some m =>
      simp only [parseCrossoverField, h]
      split_ifs with hc
      · simp only [Option.some.injEq]
        constructor
        · intro _
          exact Or.inr ⟨m, rfl, hc⟩
        · intro _
          trivial
      · constructor
        · intro hfalse
          cases hfalse
        · rintro (hfalse | ⟨n, hn, hrange⟩)
          · cases hfalse
          · injection hn with hn
            subst hn
            omega

/-! ## C7 -/

/-- C7: a supplied nonempty end date is parsed against YYYY-MM-DD and fails
with InvalidDateFormat exactly when the parse fails; an absent or empty field
is explicitly unset with no parse attempted. -/
theorem date_stage_spec (s : String) (hs : s ≠ "") :
    parseEndDateField none = Except.ok none ∧
    parseEndDateField (some "") = Except.ok none ∧
    (parseEndDateField (some s) = Except.ok (some s) ↔
      (strptimeYMD s).isSome = true) ∧
    (parseEndDateField (some s) = Except.error ValErr.invalidDateFormat ↔
      strptimeYMD s = none) := by
  refine ⟨rfl, rfl, ?_, ?_⟩ <;>
  · simp only [parseEndDateField, if_neg hs]
    cases h : strptimeYMD s <;> simp

theorem date_stage_spec_witness :
    ("2024-13-01" ≠ "") ∧
    (parseEndDateField none = Except.ok none ∧
     parseEndDateField (some "") = Except.ok none ∧
     (parseEndDateField (some "2024-13-01") = Except.ok (some "2024-13-01") ↔
       (strptimeYMD "2024-13-01").isSome = true) ∧
     (parseEndDateField (some "2024-13-01") = Except.error ValErr.invalidDateFormat ↔
       strptimeYMD "2024-13-01" = none)) ∧
    strptimeYMD "2024-13-01" = none :=
  ⟨by decide, date_stage_spec "2024-13-01" (by decide), by rfl⟩

/-! ## Demo instances used by witnesses -/

/-- Small concrete catalog for witness instantiations. -/
def catDemo : Catalog :=
  ⟨[⟨"AAPL", "Apple Inc."⟩, ⟨"GOOG", "Alphabet Inc."⟩, ⟨"AA", "Alcoa"⟩],
   [("AAPL", "Apple Inc."), ("GOOG", "Alphabet Inc."), ("AA", "Alcoa")]⟩

/-- Orchestrator that always raises (models a data-fetch failure). -/
def orchFail : Orchestrator := fun _ _ _ _ => Except.error "no data"

/-! ## C1 -/

/-- C1: on an empty or whitespace-only ticker field the code does NOT fail
with the MissingSymbol validation error: `split()[0]` raises `IndexError`
before `ticker_input` is bound, and the `except` branch then raises
`UnboundLocalError`, so the request crashes with a generic server error
instead of rendering a validation failure like the other stages. -/
theorem analyze_blank_ticker_crashes (cat : Catalog) (orch : Orchestrator)
    (f : FormData) (h : pySplitWs (f.ticker.getD "") = []) :
    analyze cat orch f = AnalyzeResult.crash unboundLocalMsg ∧
    analyzePipeline cat orch f ≠
      PipelineOutcome.failure "" (AnalyzeErr.validation ValErr.missingSymbol) ∧
    ∀ content status, analyze cat orch f ≠ AnalyzeResult.html content status := by
  have hp : analyzePipeline cat orch f = PipelineOutcome.crashUnbound := by
    unfold analyzePipeline
    rw [h]
  refine ⟨?_, ?_, ?_⟩
  · unfold analyze
    rw [hp]
  · rw [hp]
    intro hfalse
    cases hfalse
  · intro content status
    unfold analyze
    rw [hp]
    intro hfalse
    cases hfalse

theorem analyze_blank_ticker_crashes_witness :
    pySplitWs (({ ticker := some "" } : FormData).ticker.getD "") = [] ∧
    (analyze catDemo orchFail { ticker := some "" } = AnalyzeResult.crash unboundLocalMsg ∧
     analyzePipeline catDemo orchFail { ticker := some "" } ≠
       PipelineOutcome.failure "" (AnalyzeErr.validation ValErr.missingSymbol) ∧
     ∀ content status,
       analyze catDemo orchFail { ticker := some "" } ≠ AnalyzeResult.html content status) :=
  ⟨by rfl, analyze_blank_ticker_crashes catDemo orchFail _ (by rfl)⟩

/-! ## C2 -/

/-- C2: the handler does not always render the styled error document on
pipeline failure: a whitespace-only ticker is a validation failure, yet the
handler crashes (generic server error) instead of returning the styled page
with status 500. -/
theorem analyze_whitespace_ticker_generic_error (cat : Catalog) (orch : Orchestrator) :
    analyze cat orch { ticker := some "   " } = AnalyzeResult.crash unboundLocalMsg ∧
    ∀ content status,
      analyze cat orch { ticker := some "   " } ≠ AnalyzeResult.html content status := by
  have h : pySplitWs (({ ticker := some "   " } : FormData).ticker.getD "") = [] := by rfl
  have hp : analyzePipeline cat orch { ticker := some "   " } =
      PipelineOutcome.crashUnbound := by
    unfold analyzePipeline
    rw [h]
  constructor
  · unfold analyze
    rw [hp]
  · intro content status
    unfold analyze
    rw [hp]
    intro hfalse
    cases hfalse

/-! ## C10 -/

/-- C10: whenever the raw ticker field contains at least one
whitespace-delimited token, the handler is total: it returns a document with
status 200 (success) or 500 (styled error page), and no exception escapes. -/
theorem analyze_total_with_token (cat : Catalog) (orch : Orchestrator) (f : FormData)
    (h : pySplitWs (f.ticker.getD "") ≠ []) :
    ∃ content status, analyze cat orch f = AnalyzeResult.html content status ∧
      (status = 200 ∨ status = 500) := by
  rcases hsp : pySplitWs (f.ticker.getD "") with _ | ⟨tok, rest⟩
  · exact absurd hsp h
  · have hnc : analyzePipeline cat orch f ≠ PipelineOutcome.crashUnbound := by
      unfold analyzePipeline
      rw [hsp]
      dsimp only
      (repeat' split) <;> simp
    rcases hpo : analyzePipeline cat orch f with _ | ⟨t, e⟩ | ⟨t, c⟩
    · exact absurd hpo hnc
    · refine ⟨errorHtml (errorMsgFor t e.message), 500, ?_, Or.inr rfl⟩
      unfold analyze
      rw [hpo]
    · refine ⟨c, 200, ?_, Or.inl rfl⟩
      unfold analyze
      rw [hpo]

theorem analyze_total_with_token_witness :
    pySplitWs (({ ticker := some "AAPL" } : FormData).ticker.getD "") ≠ [] ∧
    ∃ content status,
      analyze catDemo orchFail { ticker := some "AAPL" } =
        AnalyzeResult.html content status ∧ (status = 200 ∨ status = 500) :=
  ⟨by decide, analyze_total_with_token catDemo orchFail _ (by decide)⟩

/-! ## Order properties of the search sort key -/

theorem searchKeyLE_total (q : String) (a b : SearchResult) :
    searchKeyLE q a b = true ∨ searchKeyLE q b a = true := by
  simp only [searchKeyLE, decide_eq_true_eq]
  rcases Nat.lt_trichotomy (searchRank q a) (searchRank q b) with h | h | h
  · exact Or.inl (Or.inl h)
  · rcases Nat.lt_trichotomy a.symbol.length b.symbol.length with h2 | h2 | h2
    · exact Or.inl (Or.inr ⟨h, Or.inl h2⟩)
    · rcases le_total a.symbol b.symbol with h3 | h3
      · exact Or.inl (Or.inr ⟨h, Or.inr ⟨h2, h3⟩⟩)
      · exact Or.inr (Or.inr ⟨h.symm, Or.inr ⟨h2.symm, h3⟩⟩)
    · exact Or.inr (Or.inr ⟨h.symm, Or.inl h2⟩)
  · exact Or.inr (Or.inl h)

theorem searchKeyLE_trans (q : String) (a b c : SearchResult)
    (hab : searchKeyLE q a b = true) (hbc : searchKeyLE q b c = true) :
    searchKeyLE q a c = true := by
  simp only [searchKeyLE, decide_eq_true_eq] at hab hbc ⊢
  rcases hab with h1 | ⟨e1, hab2⟩
  · rcases hbc with h2 | ⟨e2, -⟩
    · left
      omega
    · left
      omega
  · rcases hbc with h2 | ⟨e2, hbc2⟩
    · left
      omega
    · refine Or.inr ⟨by omega, ?_⟩
      rcases hab2 with h1 | ⟨f1, hs1⟩
      · rcases hbc2 with h2 | ⟨f2, -⟩
        · left
          omega
        · left
          omega
      · rcases hbc2 with h2 | ⟨f2, hs2⟩
        · left
          omega
        · exact Or.inr ⟨by omega, le_trans hs1 hs2⟩

/-! ## C4 -/

/-- C4: the returned result list is sorted by the composite key
(exact-match rank, symbol length, symbol), and this comparison is total, so
the order among returned results is deterministic. -/
theorem searchTicker_sorted (cat : Catalog) (qa : Option String) :
    List.Pairwise
      (fun a b => searchKeyLE (pyUpper (qa.getD "")) a b = true)
      (searchTicker cat qa) ∧
    ∀ a b : SearchResult,
      searchKeyLE (pyUpper (qa.getD "")) a b = true ∨
        searchKeyLE (pyUpper (qa.getD "")) b a = true := by
  refine ⟨?_, fun a b => searchKeyLE_total _ a b⟩
  have hmain : ∀ l : List SearchResult,
      List.Pairwise (fun a b => searchKeyLE (pyUpper (qa.getD "")) a b = true)
        ((l.mergeSort (searchKeyLE (pyUpper (qa.getD "")))).take 5) := by
    intro l
    refine List.Pairwise.sublist (List.take_sublist 5 _) ?_
    exact List.sorted_mergeSort
      (fun a b c hab hbc => searchKeyLE_trans _ a b c hab hbc)
      (fun a b => Bool.or_eq_true _ _ ▸ searchKeyLE_total _ a b)
      l
  simp only [searchTicker]
  split
  · exact List.Pairwise.nil
  · exact hmain _

/-! ## C3 -/

/-- C3: for every non-empty query, search returns at most 5 results; every
result is the exact catalog symbol match for the (upper-cased) query or an
entry whose symbol or display name contains it as a case-insensitive
substring, with the exact symbol excluded from the partial scan; and the
partial matches are collected in catalog order (a sublist of the catalog). -/
theorem searchTicker_sound (cat : Catalog) (q : String) (hq : q ≠ "") :
    (searchTicker cat (some q)).length ≤ 5 ∧
    (∀ r ∈ searchTicker cat (some q),
      (r.symbol = pyUpper q ∧ cat.dict.lookup (pyUpper q) = some r.name ∧
        r.source = Source.predefined) ∨
      (∃ t ∈ cat.tickers, r = ⟨t.symbol, t.name, Source.predefined⟩ ∧
        (pySubstr (pyUpper q) (pyUpper t.symbol) = true ∨
          pySubstr (pyUpper q) (pyUpper t.name) = true) ∧
        t.symbol ≠ pyUpper q)) ∧
    (partialMatches cat (pyUpper q)).Sublist
      (cat.tickers.map fun t => ⟨t.symbol, t.name, Source.predefined⟩) := by
  have hq' : ¬(pyUpper q = "") := fun hfalse => hq ((pyUpper_empty_iff q).mp hfalse)
  refine ⟨?_, ?_, ?_⟩
  · unfold searchTicker
    simp only [Option.getD_some]
    rw [if_neg hq']
    simp [List.length_take]
  · intro r hr
    unfold searchTicker at hr
    simp only [Option.getD_some] at hr
    rw [if_neg hq'] at hr
    have hr2 : r ∈ (if
        (match cat.dict.lookup (pyUpper q) with
          | some nm => [(⟨pyUpper q, nm, Source.predefined⟩ : SearchResult)]
          | none => []).length < 5 then
        (match cat.dict.lookup (pyUpper q) with
          | some nm => [(⟨pyUpper q, nm, Source.predefined⟩ : SearchResult)]
          | none => []) ++ (partialMatches cat (pyUpper q)).take
            (5 - (match cat.dict.lookup (pyUpper q) with
              | some nm => [(⟨pyUpper q, nm, Source.predefined⟩ : SearchResult)]
              | none => []).length)
      else
        (match cat.dict.lookup (pyUpper q) with
          | some nm => [(⟨pyUpper q, nm, Source.predefined⟩ : SearchResult)]
          | none => [])) := by
      have := List.mem_of_mem_take hr
      rw [List.mem_mergeSort] at this
      exact this
    have hpart : ∀ r, r ∈ (partialMatches cat (pyUpper q)).take
        (5 - (match cat.dict.lookup (pyUpper q) with
          | some nm => [(⟨pyUpper q, nm, Source.predefined⟩ : SearchResult)]
          | none => []).length) →
        (∃ t ∈ cat.tickers, r = ⟨t.symbol, t.name, Source.predefined⟩ ∧
          (pySubstr (pyUpper q) (pyUpper t.symbol) = true ∨
            pySubstr (pyUpper q) (pyUpper t.name) = true) ∧
          t.symbol ≠ pyUpper q) := by
      intro r' hr'
      have hm := List.mem_of_mem_take hr'
      simp only [partialMatches, List.mem_map, List.mem_filter] at hm
      obtain ⟨t, ⟨ht, hpred⟩, rfl⟩ := hm
      simp only [Bool.and_eq_true, Bool.or_eq_true, bne_iff_ne] at hpred
      exact ⟨t, ht, rfl, hpred.1, hpred.2⟩
    cases hl : cat.dict.lookup (pyUpper q) with
    | none =>
      rw [hl] at hr2
      simp only [List.length_nil, List.nil_append] at hr2
      rw [if_pos (by omega)] at hr2
      right
      have := hpart r (by rw [hl]; simpa using hr2)
      exact this
    | some nm =>
      rw [hl] at hr2
      simp only [List.length_cons, List.length_nil] at hr2
      rw [if_pos (by omega)] at hr2
      rcases List.mem_append.mp hr2 with hleft | hright
      · left
        rcases List.mem_singleton.mp hleft with rfl
        exact ⟨rfl, rfl, rfl⟩
      · right
        exact hpart r (by rw [hl]; simpa using hright)
  · exact List.Sublist.map _ (List.filter_sublist _)

theorem searchTicker_sound_witness :
    ("AA" ≠ "") ∧
    ((searchTicker catDemo (some "AA")).length ≤ 5 ∧
     (∀ r ∈ searchTicker catDemo (some "AA"),
       (r.symbol = pyUpper "AA" ∧ catDemo.dict.lookup (pyUpper "AA") = some r.name ∧
         r.source = Source.predefined) ∨
       (∃ t ∈ catDemo.tickers, r = ⟨t.symbol, t.name, Source.predefined⟩ ∧
         (pySubstr (pyUpper "AA") (pyUpper t.symbol) = true ∨
           pySubstr (pyUpper "AA") (pyUpper t.name) = true) ∧
         t.symbol ≠ pyUpper "AA")) ∧
     (partialMatches catDemo (pyUpper "AA")).Sublist
       (catDemo.tickers.map fun t => ⟨t.symbol, t.name, Source.predefined⟩)) :=
  ⟨by decide, searchTicker_sound catDemo "AA" (by decide)⟩

/-! ## C8 helper lemmas -/

theorem map_fixes_mem {α : Type} {f : α → α} :
    ∀ {l : List α}, l.map f = l → ∀ c ∈ l, f c = c := by
  intro l
  induction l with
  | nil =>
    intro _ c hc
    cases hc
  | cons a l ih =>
    intro h c hc
    rw [List.map_cons, List.cons.injEq] at h
    rcases List.mem_cons.mp hc with rfl | hc2
    · exact h.1
    · exact ih h.2 c hc2

theorem lookup_isSome_key_mem {l : List (String × String)} {k : String}
    (h : (l.lookup k).isSome = true) : ∃ p ∈ l, p.1 = k := by
  induction l with
  | nil => simp [List.lookup] at h
  | cons p l ih =>
    cases p with
    | mk a b =>
      rw [List.lookup] at h
      cases hk : k == a with
      | true =>
        rw [hk] at h
        exact ⟨(a, b), List.mem_cons_self _ _, (eq_of_beq hk).symm⟩
      | false =>
        rw [hk] at h
        obtain ⟨p, hp, hpk⟩ := ih h
        exact ⟨p, List.mem_cons_of_mem _ hp, hpk⟩

theorem pyUpper_fixed_of_prefix {input sym : String}
    (hpre : pyStartsWith sym input = true) (hfix : pyUpper sym = sym) :
    pyUpper input = input := by
  have hpre2 : input.data <+: sym.data :=
    List.isPrefixOf_iff_prefix.mp hpre
  have hfix2 : sym.data.map Char.toUpper = sym.data := congrArg String.data hfix
  have hchars : ∀ c ∈ input.data, Char.toUpper c = c := fun c hc =>
    map_fixes_mem hfix2 c (hpre2.subset hc)
  apply String.ext
  show input.data.map Char.toUpper = input.data
  calc input.data.map Char.toUpper = input.data.map id :=
        List.map_congr_left hchars
    _ = input.data := List.map_id _

/-! ## C8 -/

/-- C8: over an upper-case-canonical catalog, `resolve` returns the input
unchanged whenever its upper-cased form is an exact catalog key; otherwise it
returns the first catalog symbol (in catalog order) that starts with the
input, and the raw input unchanged when no symbol qualifies. -/
theorem resolveTicker_spec (cat : Catalog) (input : String)
    (hsym : ∀ t ∈ cat.tickers, pyUpper t.symbol = t.symbol)
    (hkeys : ∀ p ∈ cat.dict, pyUpper p.1 = p.1) :
    (cat.hasKey (pyUpper input) = true → resolveTicker cat input = input) ∧
    (cat.hasKey (pyUpper input) = false →
      ((cat.tickers.find? fun t => pyStartsWith t.symbol input) = none →
        resolveTicker cat input = input) ∧
      (∀ t, (cat.tickers.find? fun t => pyStartsWith t.symbol input) = some t →
        resolveTicker cat input = t.symbol)) := by
  constructor
  · intro hup
    by_cases hin : cat.hasKey input = true
    · simp [resolveTicker, hin]
    · replace hin : cat.hasKey input = false := by
        cases h : cat.hasKey input
        · rfl
        · exact absurd h hin
      cases hf : cat.tickers.find? fun t => pyStartsWith t.symbol input with
      | none => simp [resolveTicker, hin, hf]
      | some t =>
        exfalso
        have hmem : t ∈ cat.tickers := List.mem_of_find?_eq_some hf
        have hpred := List.find?_some hf
        have hfixed : pyUpper input = input :=
          pyUpper_fixed_of_prefix hpred (hsym t hmem)
        rw [hfixed] at hup
        rw [hup] at hin
        cases hin
  · intro hupf
    have hin : cat.hasKey input = false := by
      cases h : cat.hasKey input
      · rfl
      · exfalso
        obtain ⟨p, hp, hpk⟩ := lookup_isSome_key_mem h
        have : pyUpper input = input := by
          rw [← hpk]
          exact hkeys p hp
        rw [this] at hupf
        rw [h] at hupf
        cases hupf
    constructor
    · intro hf
      simp [resolveTicker, hin, hf]
    · intro t hf
      simp [resolveTicker, hin, hf]

theorem resolveTicker_spec_witness :
    (∀ t ∈ catDemo.tickers, pyUpper t.symbol = t.symbol) ∧
    (∀ p ∈ catDemo.dict, pyUpper p.1 = p.1) ∧
    ((catDemo.hasKey (pyUpper "GO") = true → resolveTicker catDemo "GO" = "GO") ∧
     (catDemo.hasKey (pyUpper "GO") = false →
       ((catDemo.tickers.find? fun t => pyStartsWith t.symbol "GO") = none →
         resolveTicker catDemo "GO" = "GO") ∧
       (∀ t, (catDemo.tickers.find? fun t => pyStartsWith t.symbol "GO") = some t →
         resolveTicker catDemo "GO" = t.symbol))) :=
  ⟨by decide, by decide, resolveTicker_spec catDemo "GO" (by decide) (by decide)⟩
